import Mathlib

/-!
# binancechain node API client (`binancechain/node_api.go`)

A shallow embedding of the client in `node_api.go` and the properties of its
query construction, status and envelope checks, and result mapping.

Conventions of the embedding:

* a Go `error` is `Option String` (`none` is `nil`, `some msg` an error with
  message `msg`); a pointer result is an `Option`;
* a Go function returning several values returns a tuple;
* `int64` / `uint64` values are `Int` / `Nat`, conversions are explicit;
* every operation also reports the HTTP requests it handed to the transport
  (`Traced.requests`), and operations that can stop with a run-time fault
  (nil dereference, failed type assertion) return an `Outcome`;
* the libraries the file imports (HTTP requester, gjson, base64, amino) are
  explicit arguments (`Deps`, `Req`); bech32 and hex are written out.
-/

set_option autoImplicit false

namespace binancechain

/-! ## Go values -/

/-- Go `error`: `none` is `nil`, `some msg` is an error whose `Error()` text is `msg`. -/
abbrev error := Option String

/-- UTF-8 encoding of one code point. -/
def utf8Char (c : Nat) : List Nat :=
  if c < 0x80 then [c]
  else if c < 0x800 then [0xC0 + c / 64, 0x80 + c % 64]
  else if c < 0x10000 then [0xE0 + c / 4096, 0x80 + (c / 64) % 64, 0x80 + c % 64]
  else [0xF0 + c / 262144, 0x80 + (c / 4096) % 64, 0x80 + (c / 64) % 64, 0x80 + c % 64]

/-- The bytes of a Go string (`[]byte(s)`): the UTF-8 encoding of its characters. -/
def bytesOf (s : String) : List Nat :=
  s.data.flatMap (fun ch => utf8Char ch.toNat)

/-- The Go string made of the given ASCII bytes. -/
def stringOfAscii (bs : List Nat) : String :=
  String.mk (bs.map Char.ofNat)

/-- Decimal digits of a natural number, most significant first (`fuel` bounds the digit count). -/
def decimalDigits : Nat → Nat → List Char → List Char
  | 0, _, acc => acc
  | fuel + 1, n, acc =>
    let acc := Char.ofNat (48 + n % 10) :: acc
    if n / 10 = 0 then acc else decimalDigits fuel (n / 10) acc

/-- The verb `%d` of `fmt` applied to an unsigned integer. -/
def formatUint (n : Nat) : String :=
  String.mk (decimalDigits (n + 1) n [])

/-- The verb `%d` of `fmt` applied to a signed integer. -/
def formatInt (n : Int) : String :=
  if n < 0 then "-" ++ formatUint n.natAbs else formatUint n.natAbs

/-- Go conversion `uint64(x)` of an `int64` value: two's complement, modulo `2^64`. -/
def uint64OfInt64 (x : Int) : Nat :=
  (x % 18446744073709551616).toNat

/-- Result of a call that may stop with a Go run-time fault instead of returning. -/
inductive Outcome (α : Type) where
  /-- the function returned `v` -/
  | returned (v : α)
  /-- the goroutine stopped with the run-time error `fault` -/
  | crashed (fault : String)

/-- One request handed to the HTTP requester. -/
structure Request where
  method : String
  url : String
  deriving DecidableEq, Repr

/-- A value together with the requests issued while computing it, oldest first. -/
structure Traced (α : Type) where
  requests : List Request
  value : α

/-! ## `encoding/hex` -/

namespace hex

/-- The table `hextable` of `encoding/hex`. -/
def hextable : List Char :=
  "0123456789abcdef".data

/-- The two hexadecimal digits of one byte. -/
def encodeByte (b : Nat) : List Char :=
  [hextable.getD ((b / 16) % 16) '0', hextable.getD (b % 16) '0']

/-- Model of `hex.EncodeToString`. -/
def EncodeToString (src : List Nat) : String :=
  String.mk (src.flatMap encodeByte)

end hex

/-! ## `go-sdk/common/bech32` (BIP-173 decoding) -/

namespace bech32

/-- The bech32 alphabet. -/
def charset : List Nat := bytesOf "qpzry9x8gf2tvdw0s3jn54khce6mua7l"

/-- Generator constants of the bech32 checksum. -/
def gen : List Nat := [0x3b6a57b2, 0x26508e6d, 0x1ea119fa, 0x3d4233dd, 0x2a1462b3]

/-- ASCII lower-casing of one byte (`strings.ToLower` on an ASCII string). -/
def toLowerByte (b : Nat) : Nat := if 65 ≤ b ∧ b ≤ 90 then b + 32 else b

/-- ASCII upper-casing of one byte (`strings.ToUpper` on an ASCII string). -/
def toUpperByte (b : Nat) : Nat := if 97 ≤ b ∧ b ≤ 122 then b - 32 else b

/-- Model of `strings.LastIndexByte`. -/
def lastIndexByte : List Nat → Nat → Option Nat
  | [], _ => none
  | b :: rest, c =>
    match lastIndexByte rest c with
    | some i => some (i + 1)
    | none => if b = c then some 0 else none

/-- Model of `strings.IndexByte`. -/
def indexByte : List Nat → Nat → Option Nat
  | [], _ => none
  | b :: rest, c => if b = c then some 0 else (indexByte rest c).map (· + 1)

/-- Maps each character of the data part to its 5-bit value; `none` on a foreign character. -/
def toBytes : List Nat → Option (List Nat)
  | [] => some []
  | ch :: rest =>
    match indexByte charset ch with
    | none => none
    | some index =>
      match toBytes rest with
      | none => none
      | some decoded => some (index :: decoded)

/-- One round of the checksum polynomial. -/
def polymodStep (chk v : Nat) : Nat :=
  let b := chk >>> 25
  let chk := ((chk &&& 0x1ffffff) <<< 5) ^^^ v
  (List.range 5).foldl
    (fun chk i => if (b >>> i) &&& 1 = 1 then chk ^^^ gen.getD i 0 else chk) chk

/-- The checksum polynomial over a sequence of 5-bit values. -/
def bech32Polymod (values : List Nat) : Nat :=
  values.foldl polymodStep 1

/-- Expansion of the human-readable part for the checksum. -/
def bech32HrpExpand (hrp : List Nat) : List Nat :=
  hrp.map (· >>> 5) ++ [0] ++ hrp.map (· &&& 31)

/-- Whether `data` (payload and checksum) is valid for `hrp`. -/
def bech32VerifyChecksum (hrp : List Nat) (data : List Nat) : Bool :=
  bech32Polymod (bech32HrpExpand hrp ++ data) == 1

/-- Model of `bech32.Decode`: human-readable part, 5-bit payload, error. The error texts are
shortened (the library adds the offending length, character or checksum); the package only
compares the error with nil and passes it on. -/
def Decode (bech : String) : String × List Nat × error :=
  let bs := bytesOf bech
  if bs.length < 8 ∨ bs.length > 90 then ("", [], some "invalid bech32 string length")
  else if bs.any (fun b => b < 33 || b > 126) then ("", [], some "invalid character in string")
  else
    let lower := bs.map toLowerByte
    let upper := bs.map toUpperByte
    if bs ≠ lower ∧ bs ≠ upper then ("", [], some "string not all lowercase or all uppercase")
    else
      match lastIndexByte lower 49 with
      | none => ("", [], some "invalid index of 1")
      | some one =>
        if one < 1 ∨ one + 7 > lower.length then ("", [], some "invalid index of 1")
        else
          let hrp := lower.take one
          let data := lower.drop (one + 1)
          match toBytes data with
          | none => ("", [], some "failed converting data to bytes")
          | some decoded =>
            if !bech32VerifyChecksum hrp decoded then ("", [], some "checksum failed. ")
            else (stringOfAscii hrp, decoded.take (decoded.length - 6), none)

/-- Inner loop of `ConvertBits`: moves the bits of one input group into the output groups. -/
def convertGroup (toBits : Nat) : Nat → Nat → Nat → Nat → Nat → List Nat → Nat × Nat × List Nat
  | 0, _, _, nextByte, filledBits, regrouped => (nextByte, filledBits, regrouped)
  | fuel + 1, b, remFromBits, nextByte, filledBits, regrouped =>
    if remFromBits > 0 then
      let remToBits := toBits - filledBits
      let toExtract := if remToBits < remFromBits then remToBits else remFromBits
      let nextByte := ((nextByte <<< toExtract) % 256) ||| (b >>> (8 - toExtract))
      let b := (b <<< toExtract) % 256
      let remFromBits := remFromBits - toExtract
      let filledBits := filledBits + toExtract
      if filledBits = toBits then
        convertGroup toBits fuel b remFromBits 0 0 (regrouped ++ [nextByte])
      else
        convertGroup toBits fuel b remFromBits nextByte filledBits regrouped
    else (nextByte, filledBits, regrouped)

/-- Model of `bech32.ConvertBits`. -/
def ConvertBits (data : List Nat) (fromBits toBits : Nat) (pad : Bool) : List Nat × error :=
  if fromBits < 1 ∨ fromBits > 8 ∨ toBits < 1 ∨ toBits > 8 then
    ([], some "only bit groups between 1 and 8 allowed")
  else
    let (nextByte, filledBits, regrouped) :=
      data.foldl
        (fun (st : Nat × Nat × List Nat) b =>
          convertGroup toBits fromBits ((b <<< (8 - fromBits)) % 256) fromBits st.1 st.2.1 st.2.2)
        (0, 0, [])
    let (nextByte, filledBits, regrouped) :=
      if pad ∧ filledBits > 0 then (0, 0, regrouped ++ [(nextByte <<< (toBits - filledBits)) % 256])
      else (nextByte, filledBits, regrouped)
    if filledBits > 0 ∧ (filledBits > 4 ∨ nextByte ≠ 0) then ([], some "invalid incomplete group")
    else (regrouped, none)

/-- Model of `bech32.DecodeAndConvert`: human-readable part, payload bytes, error.
On an error the other two results are the zero values. -/
def DecodeAndConvert (bech : String) : String × List Nat × error :=
  match Decode bech with
  | (_, _, some err) => ("", [], some ("decoding bech32 failed: " ++ err))
  | (hrp, data, none) =>
    match ConvertBits data 5 8 false with
    | (_, some err) => ("", [], some ("decoding bech32 failed: " ++ err))
    | (converted, none) => (hrp, converted, none)

end bech32

/-- Modelled from the spec: the constant `binancechainTransaction.Bech32Prefix`, declared in the
imported transaction driver; the spec's addresses of the chain read `bnb1...`. -/
def Bech32Prefix : String := "bnb"

/-! ## `gjson` results -/

/-- Go `string`, under a name that stays usable next to the accessor `Result.String`. -/
abbrev GoString := String

/-- Go `int64`, under a name that stays usable next to the accessor `Result.Int`. -/
abbrev GoInt64 := Int

/-- A `gjson.Result` as this package observes it: the answers of the accessors the package
calls (`Exists`, `IsObject`, `Int`, `Uint`, `String`) and, for `Get`, the members reachable by
key, in document order. How gjson computes the answers from the JSON text is the library's
matter, so the properties below hold for every such result; the functions `jsonNull`,
`jsonString`, `jsonNumber`, `jsonNegative` and `jsonObject` build the results of the usual JSON
values for the examples. -/
inductive Result where
  | mk (isPresent isObj : Bool) (int : GoInt64) (uint : Nat) (text : GoString)
      (members : List (GoString × Result))

/-- Model of `Result.Exists`. -/
def Result.Exists : Result → Bool
  | .mk e _ _ _ _ _ => e

/-- Model of `Result.IsObject`. -/
def Result.IsObject : Result → Bool
  | .mk _ o _ _ _ _ => o

/-- Model of `Result.Int`. -/
def Result.Int : Result → GoInt64
  | .mk _ _ i _ _ _ => i

/-- Model of `Result.Uint`. -/
def Result.Uint : Result → Nat
  | .mk _ _ _ u _ _ => u

/-- Model of `Result.String`. -/
def Result.String : Result → GoString
  | .mk _ _ _ _ s _ => s

/-- Members of the result, in document order; empty unless the value has members. -/
def Result.members : Result → List (GoString × Result)
  | .mk _ _ _ _ _ ms => ms

/-- The zero `gjson.Result{}`: what `Get` returns for a path that is not there. -/
def Result.missing : Result :=
  .mk false false 0 0 "" []

/-- First member with the given key, or the zero result. -/
def Result.lookup (key : GoString) : List (GoString × Result) → Result
  | [] => Result.missing
  | (k, v) :: rest => if k = key then v else Result.lookup key rest

/-- Splits a path at its dots. -/
def splitPath : List Char → List Char → List (List Char)
  | [], cur => [cur.reverse]
  | ch :: rest, cur =>
    if ch = '.' then cur.reverse :: splitPath rest [] else splitPath rest (ch :: cur)

/-- Model of `Result.Get` for the plain dotted paths of this package (`result`, `error.code`):
each path component selects the first member with that key. -/
def Result.Get (t : Result) (path : GoString) : Result :=
  (splitPath path.data []).foldl (fun r key => Result.lookup (String.mk key) r.members) t

/-- Model of gjson `parseUint`: a non-empty run of decimal digits, else not a number. -/
def parseUint (s : List Char) : Option Nat :=
  if s = [] then none
  else s.foldl (fun acc ch =>
    match acc with
    | none => none
    | some n => if '0' ≤ ch ∧ ch ≤ '9' then some ((n * 10 + (ch.toNat - 48)) % 18446744073709551616) else none)
    (some 0)

/-- Model of gjson `parseInt`: an optional minus sign and decimal digits. -/
def parseInt (s : List Char) : Option Int :=
  match s with
  | '-' :: digits => (parseUint digits).map (fun n => - Int.ofNat n)
  | _ => (parseUint s).map Int.ofNat

/-- The result of the JSON value `null`. -/
def jsonNull : Result :=
  .mk true false 0 0 "" []

/-- The result of a JSON string with content `s`. -/
def jsonString (s : String) : Result :=
  .mk true false ((parseInt s.data).getD 0) ((parseUint s.data).getD 0) s []

/-- The result of a JSON number written as the non-negative integer literal `n`
(below `2^53`, where the `float64` behind a gjson number is exact). -/
def jsonNumber (n : Nat) : Result :=
  .mk true false (Int.ofNat n) n (formatUint n) []

/-- The result of a JSON number written as the negative integer literal `-n` (`n` below `2^53`).
`Uint()` converts a negative `float64`, which Go leaves to the platform; `uint` is that value. -/
def jsonNegative (n : Nat) (uint : Nat) : Result :=
  .mk true false (- Int.ofNat n) uint ("-" ++ formatUint n) []

/-- The result of a JSON object with source text `raw` and the given members. -/
def jsonObject (raw : String) (members : List (String × Result)) : Result :=
  .mk true true 0 0 raw members

/-! ## The HTTP requester (`imroc/req`) -/

/-- The part of `http.Response` the client reads. -/
structure HttpResponse where
  StatusCode : Int

/-- A `req.Resp`: the underlying `*http.Response` (possibly nil) and the body,
which `String()` and `Bytes()` both read. -/
structure Resp where
  Response : Option HttpResponse
  body : String

/-- Model of `Resp.String`. -/
def Resp.String (r : Resp) : GoString := r.body

/-- Model of `Resp.Bytes`, as text. -/
def Resp.Bytes (r : Resp) : GoString := r.body

/-- A `req.Req`: `Do(method, url, request)` yields a response (possibly nil) and an error. -/
structure Req where
  Do : String → String → Option String → Option Resp × error

/-- The struct `Client`. -/
structure Client where
  BaseURL : String
  AccessToken : String
  Debug : Bool
  client : Option Req

/-! ## Decoded chain state (`go-sdk/common/types`) -/

/-- A `types.Coin`. -/
structure Coin where
  Denom : String
  Amount : Int
  deriving DecidableEq, Repr

/-- What the package reads of a decoded `types.Account`. -/
structure Account where
  AccountNumber : Int
  Sequence : Int
  Coins : List Coin
  deriving DecidableEq, Repr

/-- The struct `types.FixedFeeParams` of go-sdk (fees are `int64`); its `GetParamType` is the
constant "operate", whatever the message type (such as "submit_proposal"). -/
structure FixedFeeParams where
  MsgType : String
  Fee : Int
  FeeFor : Int
  deriving DecidableEq, Repr

/-- The struct `types.TransferFeeParam` of go-sdk, which embeds `FixedFeeParams`; its
`GetParamType` is "transfer" whatever the embedded message type. -/
structure TransferFeeParam where
  FixedFeeParams : FixedFeeParams
  MultiTransferFee : Int
  LowerLimitAsMulti : Int
  deriving DecidableEq, Repr

/-- The struct `types.DexFeeField`. -/
structure DexFeeField where
  FeeName : String
  FeeValue : Int
  deriving DecidableEq, Repr

/-- The interface `types.FeeParam` of go-sdk with the three implementations `RegisterWire`
registers for it; the codec can decode any of them at any place of a fee list. -/
inductive FeeParam where
  | fixed (p : FixedFeeParams)
  | transfer (p : TransferFeeParam)
  | dex (fields : List DexFeeField)
  deriving DecidableEq, Repr

/-- Model of `FeeParam.GetParamType`. -/
def FeeParam.GetParamType : FeeParam → String
  | .fixed _ => "operate"
  | .transfer _ => "transfer"
  | .dex _ => "dex"

/-- Modelled from the spec: the struct `AddrBalance`, declared in another file of the package.
The spec's Balance is an address with an amount; `getBalance` sets the fields `Address` and
`Balance` (a `*big.Int`, filled from an `int64` or zero). -/
structure AddrBalance where
  Address : String
  Balance : Int
  deriving DecidableEq, Repr

/-- The decoders the package calls: `gjson.ParseBytes`, `base64.StdEncoding.DecodeString`, and
the amino codec (`UnmarshalBinaryBare` into an account, `UnmarshalBinaryLengthPrefixed` into a
fee list) with the registrations of `RegisterAmino`, `RegisterWire` and `RegisterCodec`. -/
structure Deps where
  ParseBytes : String → Result
  DecodeString : String → Except String (List Nat)
  UnmarshalAccount : List Nat → Except String Account
  UnmarshalFees : List Nat → Except String (List FeeParam)

/-! ## The client -/

/-- Model of `NewClient`; `api` is the requester `req.New()` returns. -/
def NewClient (api : Req) (url : String) (debug : Bool) : Client :=
  { BaseURL := url, AccessToken := "", Debug := debug, client := some api }

/-- Model of `(*Client).isError`, the status check on the HTTP response. -/
def Client.isError (_b : Client) (resp : Option Resp) : error :=
  match resp with
  | none => some "Response is empty! "
  | some r =>
    match r.Response with
    | none => some "Response is empty! "
    | some response =>
      if response.StatusCode = 204 then none
      else if response.StatusCode ≠ 200 then some r.String
      else none

/-- Model of `(*Client).Call`. The error of `Do` is overwritten by the status check before it
is read; the second `if err != nil` of the source repeats the first. Debug logging has no
effect on the results and is left out. -/
def Client.Call (D : Deps) (c : Client) (path : String) (request : Option String)
    (method : String) : Traced (Option Result × error) :=
  match c.client with
  | none => ⟨[], (none, some "API url is not setup. ")⟩
  | some api =>
    let url := c.BaseURL ++ path
    let sent : List Request := [⟨method, url⟩]
    match (api.Do method url request).1 with
    | none => ⟨sent, (none, c.isError none)⟩
    | some r =>
      match c.isError (some r) with
      | some err => ⟨sent, (none, some err)⟩
      | none => ⟨sent, (some (D.ParseBytes r.Bytes), none)⟩

/-- Model of the package-level `isError`, the check on the JSON envelope. -/
def isError (result : Result) : error :=
  if !(result.Get "error").IsObject then
    if !(result.Get "result").Exists then some "Response is empty! "
    else none
  else
    some ("[" ++ formatInt (result.Get "error.code").Int ++ "]" ++ (result.Get "error.message").String)

/-- The run-time error of calling a method through a nil `*gjson.Result`. -/
def nilDereference : String :=
  "runtime error: invalid memory address or nil pointer dereference"

/-- The run-time error of the assertion `fee.(*types.TransferFeeParam)` on another type. -/
def badTypeAssertion : String :=
  "interface conversion: types.FeeParam is not *types.TransferFeeParam"

/-- Model of `(*Client).getBlockHeight`. -/
def Client.getBlockHeight (D : Deps) (c : Client) : Traced (Outcome (Nat × error)) :=
  let call := c.Call D "/status" none "GET"
  match call.value with
  | (_, some err) => ⟨call.requests, .returned (0, some err)⟩
  | (none, none) => ⟨call.requests, .crashed nilDereference⟩
  | (some resp, none) =>
    ⟨call.requests,
      .returned ((((resp.Get "result").Get "sync_info").Get "latest_block_height").Uint, none)⟩

/-- Model of `(*Client).getBlockHash`. -/
def Client.getBlockHash (D : Deps) (c : Client) (height : Nat) :
    Traced (Outcome (String × error)) :=
  let path := "/block?height=" ++ formatUint height
  let call := c.Call D path none "GET"
  match call.value with
  | (_, some err) => ⟨call.requests, .returned ("", some err)⟩
  | (none, none) => ⟨call.requests, .crashed nilDereference⟩
  | (some resp, none) =>
    ⟨call.requests,
      .returned (((((resp.Get "result").Get "block_meta").Get "block_id").Get "hash").String, none)⟩

/-- Model of `(*Client).getAccountNumberAndSequence`. -/
def Client.getAccountNumberAndSequence (D : Deps) (c : Client) (address : String) :
    Traced (Outcome (Int × Int × error)) :=
  let (pfx, hash, err) := bech32.DecodeAndConvert address
  if err ≠ none ∨ pfx ≠ Bech32Prefix then ⟨[], .returned (0, 0, err)⟩
  else
    let path := "/abci_query?path=\"/store/acc/key\"&data=0x6163636F756E743A"
      ++ hex.EncodeToString hash
    let call := c.Call D path none "GET"
    match call.value with
    | (_, some _) =>
      ⟨call.requests,
        .returned (0, 0, some "Failed to get address' account number and sequence!")⟩
    | (none, none) => ⟨call.requests, .crashed nilDereference⟩
    | (some r, none) =>
      match D.DecodeString (((r.Get "result").Get "response").Get "value").String with
      | .error _ =>
        ⟨call.requests, .returned (0, 0, some "Failed to get account number and sequence!")⟩
      | .ok respBytes =>
        match D.UnmarshalAccount respBytes with
        | .error _ =>
          ⟨call.requests, .returned (0, 0, some "Failed to get account number and sequence!")⟩
        | .ok acc => ⟨call.requests, .returned (acc.AccountNumber, acc.Sequence, none)⟩

/-- The loop of `getBalance` over the coins of the account, and the return after it. -/
def getBalance.scan (address denom : String) : List Coin → Option AddrBalance × error
  | [] => (some ⟨address, 0⟩, none)
  | coin :: coins =>
    if coin.Denom = denom then (some ⟨address, coin.Amount⟩, none)
    else getBalance.scan address denom coins

/-- Model of `(*Client).getBalance`. The result `r` of `Call` is read before `err` is tested. -/
def Client.getBalance (D : Deps) (c : Client) (address : String) (denom : String) :
    Traced (Outcome (Option AddrBalance × error)) :=
  let (pfx, hash, err) := bech32.DecodeAndConvert address
  if err ≠ none ∨ pfx ≠ Bech32Prefix then ⟨[], .returned (none, err)⟩
  else
    let path := "/abci_query?path=\"/store/acc/key\"&data=0x6163636F756E743A"
      ++ hex.EncodeToString hash
    let call := c.Call D path none "GET"
    let failed : error :=
      some ("Failed to get [" ++ denom ++ "] balance of address [" ++ address ++ "]!")
    match call.value with
    | (none, _) => ⟨call.requests, .crashed nilDereference⟩
    | (some r, err) =>
      if (((r.Get "result").Get "response").Get "value").String = "" then
        ⟨call.requests, .returned (some ⟨address, 0⟩, none)⟩
      else if err ≠ none then ⟨call.requests, .returned (none, failed)⟩
      else
        match D.DecodeString (((r.Get "result").Get "response").Get "value").String with
        | .error _ => ⟨call.requests, .returned (none, failed)⟩
        | .ok respBytes =>
          match D.UnmarshalAccount respBytes with
          | .error _ => ⟨call.requests, .returned (none, failed)⟩
          | .ok acc => ⟨call.requests, .returned (getBalance.scan address denom acc.Coins)⟩

/-- Model of `(*Client).getBlockByHeight`; `NewBlock` is the package's block mapper. -/
def Client.getBlockByHeight {Block : Type} (NewBlock : Result → Block) (D : Deps) (c : Client)
    (height : Nat) : Traced (Outcome (Option Block × error)) :=
  let path := "/block?height=" ++ formatUint height
  let call := c.Call D path none "GET"
  match call.value with
  | (_, some err) => ⟨call.requests, .returned (none, some err)⟩
  | (none, none) => ⟨call.requests, .crashed nilDereference⟩
  | (some resp, none) => ⟨call.requests, .returned (some (NewBlock (resp.Get "result")), none)⟩

/-- Model of `(*Client).getTransaction`; `NewTransaction` is the package's transaction mapper. -/
def Client.getTransaction {Transaction : Type} (NewTransaction : Result → Transaction)
    (D : Deps) (c : Client) (txid : String) : Traced (Outcome (Option Transaction × error)) :=
  let path := "/tx?hash=0x" ++ txid
  let call := c.Call D path none "GET"
  match call.value with
  | (_, some err) => ⟨call.requests, .returned (none, some err)⟩
  | (none, none) => ⟨call.requests, .crashed nilDereference⟩
  | (some resp, none) =>
    ⟨call.requests, .returned (some (NewTransaction (resp.Get "result")), none)⟩

/-- The loop of `getMultiFeeByHeight` over the decoded fees, and the return after it. -/
def getMultiFeeByHeight.scan : List FeeParam → Outcome (Nat × error)
  | [] => .returned (0, some "Get fee failed!")
  | fee :: fees =>
    if fee.GetParamType = "transfer" then
      match fee with
      | .transfer p => .returned (uint64OfInt64 p.MultiTransferFee, none)
      | _ => .crashed badTypeAssertion
    else getMultiFeeByHeight.scan fees

/-- Model of `(*Client).getMultiFeeByHeight`. -/
def Client.getMultiFeeByHeight (D : Deps) (c : Client) (height : Nat) :
    Traced (Outcome (Nat × error)) :=
  let path := "/abci_query?path=\"/param/fees\"&height=" ++ formatUint height
  let call := c.Call D path none "GET"
  match call.value with
  | (_, some err) => ⟨call.requests, .returned (0, some err)⟩
  | (none, none) => ⟨call.requests, .crashed nilDereference⟩
  | (some resp, none) =>
    match D.DecodeString (((resp.Get "result").Get "response").Get "value").String with
    | .error err => ⟨call.requests, .returned (0, some err)⟩
    | .ok data =>
      match D.UnmarshalFees data with
      | .error err => ⟨call.requests, .returned (0, some err)⟩
      | .ok fees => ⟨call.requests, getMultiFeeByHeight.scan fees⟩

/-- The loop of `getFeeByHeight` over the decoded fees, and the return after it. -/
def getFeeByHeight.scan : List FeeParam → Outcome (Nat × error)
  | [] => .returned (0, some "Get fee failed!")
  | fee :: fees =>
    if fee.GetParamType = "transfer" then
      match fee with
      | .transfer p => .returned (uint64OfInt64 p.FixedFeeParams.Fee, none)
      | _ => .crashed badTypeAssertion
    else getFeeByHeight.scan fees

/-- Model of `(*Client).getFeeByHeight`. -/
def Client.getFeeByHeight (D : Deps) (c : Client) (height : Nat) :
    Traced (Outcome (Nat × error)) :=
  let path := "/abci_query?path=\"/param/fees\"&height=" ++ formatUint height
  let call := c.Call D path none "GET"
  match call.value with
  | (_, some err) => ⟨call.requests, .returned (0, some err)⟩
  | (none, none) => ⟨call.requests, .crashed nilDereference⟩
  | (some resp, none) =>
    match D.DecodeString (((resp.Get "result").Get "response").Get "value").String with
    | .error err => ⟨call.requests, .returned (0, some err)⟩
    | .ok data =>
      match D.UnmarshalFees data with
      | .error err => ⟨call.requests, .returned (0, some err)⟩
      | .ok fees => ⟨call.requests, getFeeByHeight.scan fees⟩

/-- Model of `(*Client).sendTransaction`. -/
def Client.sendTransaction (D : Deps) (c : Client) (jsonStr : String) :
    Traced (Outcome (String × error)) :=
  let path := "/broadcast_tx_commit?tx=0x" ++ jsonStr
  let call := c.Call D path none "GET"
  match call.value with
  | (_, some err) => ⟨call.requests, .returned ("", some err)⟩
  | (none, none) => ⟨call.requests, .crashed nilDereference⟩
  | (some resp, none) =>
    if ((resp.Get "result").Get "height").Uint = 0 then
      ⟨call.requests,
        .returned ("", some ("send transaction failed with error:"
          ++ ((resp.Get "result").Get "check_tx").String))⟩
    else ⟨call.requests, .returned (((resp.Get "result").Get "hash").String, none)⟩

/-! ## Example nodes and documents -/

namespace Example

/-- A requester whose node answers every request with the given status code and body. -/
def node (status : Int) (body : String) : Req :=
  ⟨fun _ _ _ => (some ⟨some ⟨status⟩, body⟩, none)⟩

/-- A requester that reaches no node: `Do` yields no response and an error. -/
def unreachable : Req :=
  ⟨fun _ _ _ => (none, some "dial tcp: connection refused")⟩

/-- An envelope whose `error` member is the empty object, next to a `result`. -/
def emptyErrorEnvelope : Result :=
  jsonObject "\x7b\"error\":\x7b\x7d,\"result\":\"ok\"\x7d"
    [("error", jsonObject "\x7b\x7d" []), ("result", jsonString "ok")]

/-- The failure envelope quoted in the comment of `isError`, as text. -/
def rpcErrorBody : String :=
  "\x7b\"result\":null,\"error\":\x7b\"code\":-8,\"message\":\"Block height out of range\"\x7d,\"id\":\"foo\"\x7d"

/-- The failure envelope quoted in the comment of `isError`, as gjson reads it. -/
def rpcErrorEnvelope : Result :=
  jsonObject rpcErrorBody
    [("result", jsonNull),
     ("error", jsonObject "\x7b\"code\":-8,\"message\":\"Block height out of range\"\x7d"
        [("code", jsonNegative 8 18446744073709551608),
         ("message", jsonString "Block height out of range")]),
     ("id", jsonString "foo")]

/-- A successful account query: the store value is the base64 text `CgNCTkI=`. -/
def accountBody : String :=
  "\x7b\"jsonrpc\":\"2.0\",\"id\":\"\",\"result\":\x7b\"response\":\x7b\"value\":\"CgNCTkI=\"\x7d\x7d\x7d"

/-- The account query answer `accountBody`, as gjson reads it. -/
def accountEnvelope : Result :=
  jsonObject accountBody
    [("jsonrpc", jsonString "2.0"), ("id", jsonString ""),
     ("result", jsonObject "\x7b\"response\":\x7b\"value\":\"CgNCTkI=\"\x7d\x7d"
        [("response", jsonObject "\x7b\"value\":\"CgNCTkI=\"\x7d"
          [("value", jsonString "CgNCTkI=")])])]

/-- The answer to the account query for an address the chain has no account for:
the response carries no `value`. -/
def noAccountBody : String :=
  "\x7b\"jsonrpc\":\"2.0\",\"id\":\"\",\"result\":\x7b\"response\":\x7b\x7d\x7d\x7d"

/-- The answer `noAccountBody`, as gjson reads it. -/
def noAccountEnvelope : Result :=
  jsonObject noAccountBody
    [("jsonrpc", jsonString "2.0"), ("id", jsonString ""),
     ("result", jsonObject "\x7b\"response\":\x7b\x7d\x7d"
        [("response", jsonObject "\x7b\x7d" [])])]

/-- A broadcast answer the node rejected in `check_tx`: no block height. -/
def rejectedBody : String :=
  "\x7b\"result\":\x7b\"check_tx\":\x7b\"code\":4\x7d,\"hash\":\"AB12\",\"height\":\"0\"\x7d\x7d"

/-- The broadcast answer `rejectedBody`, as gjson reads it. -/
def rejectedEnvelope : Result :=
  jsonObject rejectedBody
    [("result", jsonObject "\x7b\"check_tx\":\x7b\"code\":4\x7d,\"hash\":\"AB12\",\"height\":\"0\"\x7d"
        [("check_tx", jsonObject "\x7b\"code\":4\x7d" [("code", jsonNumber 4)]),
         ("hash", jsonString "AB12"),
         ("height", jsonString "0")])]

/-- A broadcast answer for a transaction committed at height 12. -/
def committedBody : String :=
  "\x7b\"result\":\x7b\"check_tx\":\x7b\x7d,\"hash\":\"AB12\",\"height\":\"12\"\x7d\x7d"

/-- The broadcast answer `committedBody`, as gjson reads it. -/
def committedEnvelope : Result :=
  jsonObject committedBody
    [("result", jsonObject "\x7b\"check_tx\":\x7b\x7d,\"hash\":\"AB12\",\"height\":\"12\"\x7d"
        [("check_tx", jsonObject "\x7b\x7d" []),
         ("hash", jsonString "AB12"),
         ("height", jsonString "12")])]

/-- An answer to the fee query: the store value is the base64 text `AQID`. -/
def feesBody : String :=
  "\x7b\"jsonrpc\":\"2.0\",\"id\":\"\",\"result\":\x7b\"response\":\x7b\"value\":\"AQID\"\x7d\x7d\x7d"

/-- The fee query answer `feesBody`, as gjson reads it. -/
def feesEnvelope : Result :=
  jsonObject feesBody
    [("jsonrpc", jsonString "2.0"), ("id", jsonString ""),
     ("result", jsonObject "\x7b\"response\":\x7b\"value\":\"AQID\"\x7d\x7d"
        [("response", jsonObject "\x7b\"value\":\"AQID\"\x7d"
          [("value", jsonString "AQID")])])]

/-- The reading of the example documents by `gjson.ParseBytes`; any other text is read as
a document without members. -/
def parseBytes (body : String) : Result :=
  if body = rpcErrorBody then rpcErrorEnvelope
  else if body = feesBody then feesEnvelope
  else if body = accountBody then accountEnvelope
  else if body = noAccountBody then noAccountEnvelope
  else if body = rejectedBody then rejectedEnvelope
  else if body = committedBody then committedEnvelope
  else Result.missing

/-- The base64 texts of the examples with their bytes; any other text is refused. -/
def decodeString (s : String) : Except String (List Nat) :=
  if s = "CgNCTkI=" then .ok [10, 3, 66, 78, 66]
  else if s = "AQID" then .ok [1, 2, 3]
  else if s = "" then .ok []
  else .error "illegal base64 data at input byte 0"

/-- The account the example bytes stand for. -/
def account : Account :=
  { AccountNumber := 7, Sequence := 3,
    Coins := [⟨"BTC-1DC", 5⟩, ⟨"BNB", 1000⟩, ⟨"BNB", 9⟩] }

/-- A codec that reads the example bytes as `account` and refuses everything else. -/
def unmarshalAccount (bz : List Nat) : Except String Account :=
  if bz = [10, 3, 66, 78, 66] then .ok account else .error "unmarshal: unexpected bytes"

/-- A codec that reads no fee list. -/
def unmarshalFees (_bz : List Nat) : Except String (List FeeParam) :=
  .error "unmarshal: unexpected bytes"

/-- The decoders of the examples. -/
def deps : Deps :=
  { ParseBytes := parseBytes, DecodeString := decodeString,
    UnmarshalAccount := unmarshalAccount, UnmarshalFees := unmarshalFees }

/-- A main-net address (human-readable part `bnb`) with a valid checksum. -/
def address : String := "bnb1grpf0955h0ykzq3ar5nmum7y6gdfl6lxfn46h2"

/-- The same 20 bytes under the test-net part `tbnb`, with a valid checksum. -/
def testnetAddress : String := "tbnb1grpf0955h0ykzq3ar5nmum7y6gdfl6lx8xu7hm"

/-- The 20 bytes both example addresses encode. -/
def addressBytes : List Nat :=
  [64, 194, 151, 150, 148, 187, 201, 97, 2, 61, 29, 39, 190, 111, 196, 210, 26, 159, 235, 230]

/-- The base URL of the example node. -/
def baseURL : String := "http://127.0.0.1:27147"

end Example

/-! ## Properties -/

/-- A dotted path selects member by member. -/
theorem Result.Get_error_code (r : Result) :
    r.Get "error.code" = (r.Get "error").Get "code" := by
  rfl

/-- A dotted path selects member by member. -/
theorem Result.Get_error_message (r : Result) :
    r.Get "error.message" = (r.Get "error").Get "message" := by
  rfl

/-- C6: the status check `Client.isError` fails with "Response is empty! " on an absent
response and on a response without transport object; on a present response it succeeds
exactly for the status codes 200 and 204, and for every other code the error message is the
body text; `Call` returns the error of this check on the response of the requester. -/
theorem Client.isError_status (b : Client) :
    b.isError none = some "Response is empty! " ∧
    (∀ body : String, b.isError (some ⟨none, body⟩) = some "Response is empty! ") ∧
    (∀ (code : Int) (body : String),
      b.isError (some ⟨some ⟨code⟩, body⟩) = none ↔ (code = 200 ∨ code = 204)) ∧
    (∀ (code : Int) (body : String),
      b.isError (some ⟨some ⟨code⟩, body⟩)
        = if code = 200 ∨ code = 204 then none else some body) ∧
    (∀ (D : Deps) (api : Req) (path : String) (request : Option String) (method : String),
      b.client = some api →
      (b.Call D path request method).value.2
        = b.isError (api.Do method (b.BaseURL ++ path) request).1) := by
  have key : ∀ (code : Int) (body : String),
      b.isError (some ⟨some ⟨code⟩, body⟩)
        = if code = 200 ∨ code = 204 then none else some body := by
    intro code body
    by_cases h204 : code = 204
    · subst h204; simp [Client.isError]
    · by_cases h200 : code = 200
      · subst h200; simp [Client.isError]
      · simp [Client.isError, h204, h200, Resp.String]
  refine ⟨rfl, fun _ => rfl, ?_, key, ?_⟩
  · intro code body
    rw [key]
    by_cases h : code = 200 ∨ code = 204 <;> simp [h]
  · intro D api path request method hc
    unfold Client.Call
    rw [hc]
    simp only
    cases hdo : (api.Do method (b.BaseURL ++ path) request).1 with
    | none => rfl
    | some r =>
      simp only
      cases hr : b.isError (some r) with
      | none => rfl
      | some err => rfl

/-- C6, at a node answering 500: the check returns the body as error and `Call` passes it on. -/
theorem Client.isError_status_witness :
    (NewClient (Example.node 500 "Internal Server Error") Example.baseURL false).client
        = some (Example.node 500 "Internal Server Error") ∧
    ((NewClient (Example.node 500 "Internal Server Error") Example.baseURL false).Call
        Example.deps "/status" none "GET").value.2 = some "Internal Server Error" :=
  ⟨rfl, ((Client.isError_status
    (NewClient (Example.node 500 "Internal Server Error") Example.baseURL false)).2.2.2.2
      Example.deps (Example.node 500 "Internal Server Error") "/status" none "GET" rfl).trans rfl⟩

/-- C7 (counterexample): for the envelope whose `error` member is the empty object and whose
`result` member exists, the envelope check does not succeed: it returns the error "[0]". -/
theorem isError_empty_error_object :
    (Example.emptyErrorEnvelope.Get "error").IsObject = true ∧
    (Example.emptyErrorEnvelope.Get "error").members = [] ∧
    (Example.emptyErrorEnvelope.Get "result").Exists = true ∧
    isError Example.emptyErrorEnvelope = some "[0]" ∧
    isError Example.emptyErrorEnvelope ≠ none := by
  refine ⟨rfl, rfl, rfl, ?_, ?_⟩
  · decide
  · decide

/-- C7 (amended): the envelope check returns an error "[code]message" exactly when the
`error` member is a JSON object, empty or not, with the decimal `Int()` of `error.code` and
the `String()` of `error.message`; when it is not an object the check fails with
"Response is empty! " if the `result` member does not exist and succeeds otherwise. -/
theorem isError_envelope (r : Result) :
    isError r =
      if (r.Get "error").IsObject = true then
        some ("[" ++ formatInt ((r.Get "error").Get "code").Int ++ "]"
          ++ ((r.Get "error").Get "message").String)
      else if (r.Get "result").Exists = true then none
      else some "Response is empty! " := by
  unfold isError
  rw [Result.Get_error_code, Result.Get_error_message]
  cases (r.Get "error").IsObject <;> cases (r.Get "result").Exists <;> simp

/-- C8 (the code at the failing input): the node answers `/status` with status 200 and the
failure envelope of the comment in `isError`. The envelope check would report
"[-8]Block height out of range", but `Call` never applies it: `getBlockHeight` returns height
0, `getBlockHash` the empty hash, both with a nil error, and `sendTransaction` fails with a
message that is not the formatted node error. -/
theorem getBlockHeight_ignores_rpc_error :
    isError (Example.deps.ParseBytes Example.rpcErrorBody)
      = some "[-8]Block height out of range" ∧
    ((NewClient (Example.node 200 Example.rpcErrorBody) Example.baseURL false).getBlockHeight
      Example.deps).value = .returned (0, none) ∧
    ((NewClient (Example.node 200 Example.rpcErrorBody) Example.baseURL false).getBlockHash
      Example.deps 5).value = .returned ("", none) ∧
    ((NewClient (Example.node 200 Example.rpcErrorBody) Example.baseURL false).sendTransaction
      Example.deps "c601").value = .returned ("", some "send transaction failed with error:") := by
  refine ⟨?_, ?_, ?_, ?_⟩
  · decide
  · rfl
  · rfl
  · rfl

/-- With a requester configured, `Call` issues exactly one request, for `BaseURL ++ path`. -/
theorem Client.Call_requests (D : Deps) (c : Client) (api : Req) (path : String)
    (request : Option String) (method : String) (hc : c.client = some api) :
    (c.Call D path request method).requests = [⟨method, c.BaseURL ++ path⟩] := by
  unfold Client.Call
  rw [hc]
  simp only
  cases (api.Do method (c.BaseURL ++ path) request).1 with
  | none => rfl
  | some r =>
    simp only
    cases c.isError (some r) <;> rfl

/-- On a response with status 200 or 204, `Call` returns the parsed body and no error. -/
theorem Client.Call_of_status (D : Deps) (c : Client) (api : Req) (path : String)
    (request : Option String) (method : String) (resp : Resp) (code : Int)
    (hc : c.client = some api)
    (hdo : (api.Do method (c.BaseURL ++ path) request).1 = some resp)
    (hresp : resp.Response = some ⟨code⟩) (hcode : code = 200 ∨ code = 204) :
    c.Call D path request method
      = ⟨[⟨method, c.BaseURL ++ path⟩], (some (D.ParseBytes resp.body), none)⟩ := by
  have hok : c.isError (some resp) = none := by
    unfold Client.isError
    simp only [hresp]
    rcases hcode with h | h <;> subst h <;> simp
  unfold Client.Call
  rw [hc]
  simp only [hdo, hok]
  rfl

/-- An address that decodes under another human-readable part stops `getBalance` before any
request, with a nil result and the nil error of the decoder. -/
theorem getBalance_of_other_part (D : Deps) (c : Client) (address denom pfx : String)
    (hash : List Nat) (haddr : bech32.DecodeAndConvert address = (pfx, hash, none))
    (hpfx : pfx ≠ Bech32Prefix) :
    c.getBalance D address denom = ⟨[], .returned (none, none)⟩ := by
  unfold Client.getBalance
  rw [haddr]
  simp [hpfx]

/-- An address that decodes under another human-readable part stops
`getAccountNumberAndSequence` before any request, with zeros and a nil error. -/
theorem getAccountNumberAndSequence_of_other_part (D : Deps) (c : Client)
    (address pfx : String) (hash : List Nat)
    (haddr : bech32.DecodeAndConvert address = (pfx, hash, none))
    (hpfx : pfx ≠ Bech32Prefix) :
    c.getAccountNumberAndSequence D address = ⟨[], .returned (0, 0, none)⟩ := by
  unfold Client.getAccountNumberAndSequence
  rw [haddr]
  simp [hpfx]

set_option maxRecDepth 100000 in
/-- The test-net example address has a valid checksum and the human-readable part `tbnb`. -/
theorem testnetAddress_decodes :
    bech32.DecodeAndConvert Example.testnetAddress = ("tbnb", Example.addressBytes, none) := by
  decide

set_option maxRecDepth 100000 in
/-- The main-net example address has a valid checksum and the human-readable part `bnb`. -/
theorem address_decodes :
    bech32.DecodeAndConvert Example.address = (Bech32Prefix, Example.addressBytes, none) := by
  decide

/-- C1 (the code at the failing input): the address
`tbnb1grpf0955h0ykzq3ar5nmum7y6gdfl6lx8xu7hm` has a valid checksum and the human-readable
part `tbnb`, not `bnb`. For every client, decoder set and denom, `getBalance` returns a nil
balance with a nil error and `getAccountNumberAndSequence` returns zeros with a nil error;
neither issues a request. -/
theorem foreign_part_returns_nil_error (D : Deps) (c : Client) (denom : String) :
    bech32.DecodeAndConvert Example.testnetAddress = ("tbnb", Example.addressBytes, none) ∧
    "tbnb" ≠ Bech32Prefix ∧
    (c.getBalance D Example.testnetAddress denom).value = .returned (none, none) ∧
    (c.getBalance D Example.testnetAddress denom).requests = [] ∧
    (c.getAccountNumberAndSequence D Example.testnetAddress).value = .returned (0, 0, none) ∧
    (c.getAccountNumberAndSequence D Example.testnetAddress).requests = [] := by
  have hne : "tbnb" ≠ Bech32Prefix := by decide
  have hb := getBalance_of_other_part D c Example.testnetAddress denom "tbnb"
    Example.addressBytes testnetAddress_decodes hne
  have hs := getAccountNumberAndSequence_of_other_part D c Example.testnetAddress "tbnb"
    Example.addressBytes testnetAddress_decodes hne
  refine ⟨testnetAddress_decodes, hne, ?_, ?_, ?_, ?_⟩
  · rw [hb]
  · rw [hb]
  · rw [hs]
  · rw [hs]

/-- When `Call` yields no result, `getBalance` dereferences the nil result and stops. -/
theorem getBalance_of_nil_result (D : Deps) (c : Client) (address denom : String)
    (hash : List Nat) (err : error)
    (haddr : bech32.DecodeAndConvert address = (Bech32Prefix, hash, none))
    (hcall : (c.Call D ("/abci_query?path=\"/store/acc/key\"&data=0x6163636F756E743A"
      ++ hex.EncodeToString hash) none "GET").value = (none, err)) :
    (c.getBalance D address denom).value = .crashed nilDereference := by
  unfold Client.getBalance
  rw [haddr]
  simp [hcall]

/-- C10 (the code at the failing input): for the valid address
`bnb1grpf0955h0ykzq3ar5nmum7y6gdfl6lxfn46h2`, when the node answers the account query with
status 500, and when the requester yields no response at all, `Call` returns a nil result
with an error and `getBalance` stops with a nil dereference instead of returning an error;
`getAccountNumberAndSequence` on the same inputs returns its error. -/
theorem getBalance_crashes_on_failed_call (denom : String) :
    ((NewClient (Example.node 500 "Internal Server Error") Example.baseURL false).Call
      Example.deps ("/abci_query?path=\"/store/acc/key\"&data=0x6163636F756E743A"
        ++ hex.EncodeToString Example.addressBytes) none "GET").value
      = (none, some "Internal Server Error") ∧
    ((NewClient (Example.node 500 "Internal Server Error") Example.baseURL false).getBalance
      Example.deps Example.address denom).value = .crashed nilDereference ∧
    ((NewClient Example.unreachable Example.baseURL false).getBalance
      Example.deps Example.address denom).value = .crashed nilDereference ∧
    ((NewClient (Example.node 500 "Internal Server Error")
      Example.baseURL false).getAccountNumberAndSequence Example.deps Example.address).value
      = .returned (0, 0, some "Failed to get address' account number and sequence!") := by
  refine ⟨rfl, ?_, ?_, ?_⟩
  · exact getBalance_of_nil_result _ _ _ _ _ _ address_decodes rfl
  · exact getBalance_of_nil_result _ _ _ _ _ (some "Response is empty! ") address_decodes rfl
  · unfold Client.getAccountNumberAndSequence
    rw [address_decodes]
    rfl

/-- Hex encoding distributes over concatenation. -/
theorem hex.EncodeToString_append (a b : List Nat) :
    hex.EncodeToString (a ++ b) = hex.EncodeToString a ++ hex.EncodeToString b := by
  unfold hex.EncodeToString
  rw [List.flatMap_append]
  rfl

/-- The requests of `getBalance` for a valid address. -/
theorem getBalance_requests (D : Deps) (c : Client) (api : Req) (address denom : String)
    (h : List Nat) (hc : c.client = some api)
    (haddr : bech32.DecodeAndConvert address = (Bech32Prefix, h, none)) :
    (c.getBalance D address denom).requests
      = [⟨"GET", c.BaseURL ++ ("/abci_query?path=\"/store/acc/key\"&data=0x6163636F756E743A"
          ++ hex.EncodeToString h)⟩] := by
  have hreq := Client.Call_requests D c api
    ("/abci_query?path=\"/store/acc/key\"&data=0x6163636F756E743A" ++ hex.EncodeToString h)
    none "GET" hc
  unfold Client.getBalance
  rw [haddr]
  simp only [ne_eq, not_true_eq_false, or_self, if_false]
  split
  · exact hreq
  · split
    · exact hreq
    · split
      · exact hreq
      · split
        · exact hreq
        · split <;> exact hreq

/-- The requests of `getAccountNumberAndSequence` for a valid address. -/
theorem getAccountNumberAndSequence_requests (D : Deps) (c : Client) (api : Req)
    (address : String) (h : List Nat) (hc : c.client = some api)
    (haddr : bech32.DecodeAndConvert address = (Bech32Prefix, h, none)) :
    (c.getAccountNumberAndSequence D address).requests
      = [⟨"GET", c.BaseURL ++ ("/abci_query?path=\"/store/acc/key\"&data=0x6163636F756E743A"
          ++ hex.EncodeToString h)⟩] := by
  have hreq := Client.Call_requests D c api
    ("/abci_query?path=\"/store/acc/key\"&data=0x6163636F756E743A" ++ hex.EncodeToString h)
    none "GET" hc
  unfold Client.getAccountNumberAndSequence
  rw [haddr]
  simp only [ne_eq, not_true_eq_false, or_self, if_false]
  split
  · exact hreq
  · exact hreq
  · split
    · exact hreq
    · split <;> exact hreq

/-- C9: for a valid address with payload bytes `h` (and a requester configured), `getBalance`
and `getAccountNumberAndSequence` each issue exactly one GET request, for the base URL
followed by `/abci_query?path="/store/acc/key"&data=0x6163636F756E743A` and the hex encoding of
`h`, unescaped, and both issue the same request; up to the letter case of its hex digits the
literal `6163636F756E743A` is the hex encoding of the bytes of "account:", so the data argument
is the hex encoding of "account:" followed by `h`. -/
theorem account_query_path (D : Deps) (c : Client) (api : Req) (address denom : String)
    (h : List Nat) (hc : c.client = some api)
    (haddr : bech32.DecodeAndConvert address = (Bech32Prefix, h, none)) :
    (c.getBalance D address denom).requests
      = [⟨"GET", c.BaseURL ++ ("/abci_query?path=\"/store/acc/key\"&data=0x6163636F756E743A"
          ++ hex.EncodeToString h)⟩] ∧
    (c.getAccountNumberAndSequence D address).requests
      = (c.getBalance D address denom).requests ∧
    String.mk ("6163636F756E743A".data.map Char.toLower)
      = hex.EncodeToString (bytesOf "account:") ∧
    String.mk ("6163636F756E743A".data.map Char.toLower) ++ hex.EncodeToString h
      = hex.EncodeToString (bytesOf "account:" ++ h) := by
  have hlit : String.mk ("6163636F756E743A".data.map Char.toLower)
      = hex.EncodeToString (bytesOf "account:") := by decide
  refine ⟨getBalance_requests D c api address denom h hc haddr, ?_, hlit, ?_⟩
  · rw [getBalance_requests D c api address denom h hc haddr,
      getAccountNumberAndSequence_requests D c api address h hc haddr]
  · rw [hex.EncodeToString_append, hlit]

set_option maxRecDepth 100000 in
/-- C9, at the main-net example address and a node answering 200. -/
theorem account_query_path_witness :
    (NewClient (Example.node 200 Example.accountBody) Example.baseURL false).client
      = some (Example.node 200 Example.accountBody) ∧
    bech32.DecodeAndConvert Example.address = (Bech32Prefix, Example.addressBytes, none) ∧
    ((NewClient (Example.node 200 Example.accountBody) Example.baseURL false).getBalance
      Example.deps Example.address "BNB").requests
      = [⟨"GET", "http://127.0.0.1:27147/abci_query?path=\"/store/acc/key\"&data=0x6163636F756E743A40c2979694bbc961023d1d27be6fc4d21a9febe6"⟩] :=
  ⟨rfl, by decide,
    (account_query_path Example.deps _ (Example.node 200 Example.accountBody) Example.address
      "BNB" Example.addressBytes rfl (by decide)).1.trans (by decide)⟩

/-- The coin loop returns the amount of the first coin of the denom, zero without one. -/
theorem getBalance.scan_eq (address denom : String) (coins : List Coin) :
    getBalance.scan address denom coins
      = (some ⟨address,
          ((coins.find? (fun coin => decide (coin.Denom = denom))).map Coin.Amount).getD 0⟩,
        none) := by
  induction coins with
  | nil => rfl
  | cons coin coins ih =>
    by_cases hd : coin.Denom = denom
    · simp [getBalance.scan, hd]
    · simp [getBalance.scan, hd, ih]

/-- What `getBalance` returns once `Call` has returned a result without error. -/
theorem getBalance_of_result (D : Deps) (c : Client) (address denom : String) (h : List Nat)
    (reqs : List Request) (r : Result)
    (haddr : bech32.DecodeAndConvert address = (Bech32Prefix, h, none))
    (hcall : c.Call D ("/abci_query?path=\"/store/acc/key\"&data=0x6163636F756E743A"
      ++ hex.EncodeToString h) none "GET" = ⟨reqs, (some r, none)⟩) :
    (c.getBalance D address denom).value =
      if (((r.Get "result").Get "response").Get "value").String = "" then
        .returned (some ⟨address, 0⟩, none)
      else
        match D.DecodeString (((r.Get "result").Get "response").Get "value").String with
        | .error _ => .returned (none,
            some ("Failed to get [" ++ denom ++ "] balance of address [" ++ address ++ "]!"))
        | .ok respBytes =>
          match D.UnmarshalAccount respBytes with
          | .error _ => .returned (none,
              some ("Failed to get [" ++ denom ++ "] balance of address [" ++ address ++ "]!"))
          | .ok acc => .returned (getBalance.scan address denom acc.Coins) := by
  unfold Client.getBalance
  rw [haddr]
  simp only [ne_eq, not_true_eq_false, or_self, if_false, hcall]
  split
  · rfl
  · cases D.DecodeString (((r.Get "result").Get "response").Get "value").String with
    | error e => rfl
    | ok respBytes =>
      simp only
      cases D.UnmarshalAccount respBytes <;> rfl

/-- C2: for a valid address, when the node answers the account query with status 200 or 204,
the response carries a value that base64-decodes to bytes the codec decodes to the account
`acc`, `getBalance` returns, with a nil error, the balance of the queried address whose amount
is the amount of the first coin of `acc` with the requested denom, and zero when `acc` has no
coin of that denom. -/
theorem getBalance_first_coin (D : Deps) (c : Client) (api : Req) (address denom : String)
    (h : List Nat) (resp : Resp) (code : Int) (bz : List Nat) (acc : Account)
    (hc : c.client = some api)
    (haddr : bech32.DecodeAndConvert address = (Bech32Prefix, h, none))
    (hdo : (api.Do "GET" (c.BaseURL ++ ("/abci_query?path=\"/store/acc/key\"&data=0x6163636F756E743A"
      ++ hex.EncodeToString h)) none).1 = some resp)
    (hresp : resp.Response = some ⟨code⟩) (hcode : code = 200 ∨ code = 204)
    (hval : ((((D.ParseBytes resp.body).Get "result").Get "response").Get "value").String ≠ "")
    (hb64 : D.DecodeString
      ((((D.ParseBytes resp.body).Get "result").Get "response").Get "value").String = .ok bz)
    (hacc : D.UnmarshalAccount bz = .ok acc) :
    (c.getBalance D address denom).value
      = .returned (some ⟨address,
          ((acc.Coins.find? (fun coin => decide (coin.Denom = denom))).map Coin.Amount).getD 0⟩,
        none) := by
  rw [getBalance_of_result D c address denom h _ _ haddr
    (Client.Call_of_status D c api _ none "GET" resp code hc hdo hresp hcode)]
  simp only [hval, if_false, hb64, hacc, getBalance.scan_eq]

set_option maxRecDepth 100000 in
/-- C2, at the example account (coins BTC-1DC 5, BNB 1000, BNB 9) and the denom BNB. -/
theorem getBalance_first_coin_witness :
    (NewClient (Example.node 200 Example.accountBody) Example.baseURL false).client
      = some (Example.node 200 Example.accountBody) ∧
    bech32.DecodeAndConvert Example.address = (Bech32Prefix, Example.addressBytes, none) ∧
    Example.deps.DecodeString "CgNCTkI=" = .ok [10, 3, 66, 78, 66] ∧
    Example.deps.UnmarshalAccount [10, 3, 66, 78, 66] = .ok Example.account ∧
    ((NewClient (Example.node 200 Example.accountBody) Example.baseURL false).getBalance
      Example.deps Example.address "BNB").value
      = .returned (some ⟨"bnb1grpf0955h0ykzq3ar5nmum7y6gdfl6lxfn46h2", 1000⟩, none) :=
  ⟨rfl, by decide, rfl, rfl,
    (getBalance_first_coin Example.deps _ (Example.node 200 Example.accountBody)
      Example.address "BNB" Example.addressBytes ⟨some ⟨200⟩, Example.accountBody⟩ 200
      [10, 3, 66, 78, 66] Example.account rfl (by decide) rfl rfl (Or.inl rfl) (by decide)
      rfl rfl).trans rfl⟩

/-- C3: for a valid address and any denom, when the node answers the account query with
status 200 or 204 and the `String()` of `result.response.value` in the response is empty
(the member is missing, null or the empty string), `getBalance` returns the balance of the
queried address with amount zero and a nil error. -/
theorem getBalance_empty_value (D : Deps) (c : Client) (api : Req) (address denom : String)
    (h : List Nat) (resp : Resp) (code : Int)
    (hc : c.client = some api)
    (haddr : bech32.DecodeAndConvert address = (Bech32Prefix, h, none))
    (hdo : (api.Do "GET" (c.BaseURL ++ ("/abci_query?path=\"/store/acc/key\"&data=0x6163636F756E743A"
      ++ hex.EncodeToString h)) none).1 = some resp)
    (hresp : resp.Response = some ⟨code⟩) (hcode : code = 200 ∨ code = 204)
    (hval : ((((D.ParseBytes resp.body).Get "result").Get "response").Get "value").String = "") :
    (c.getBalance D address denom).value = .returned (some ⟨address, 0⟩, none) := by
  rw [getBalance_of_result D c address denom h _ _ haddr
    (Client.Call_of_status D c api _ none "GET" resp code hc hdo hresp hcode)]
  simp only [hval, if_true]

set_option maxRecDepth 100000 in
/-- C3, at a node whose answer carries no `value` member. -/
theorem getBalance_empty_value_witness :
    (NewClient (Example.node 200 Example.noAccountBody) Example.baseURL false).client
      = some (Example.node 200 Example.noAccountBody) ∧
    bech32.DecodeAndConvert Example.address = (Bech32Prefix, Example.addressBytes, none) ∧
    ((((Example.deps.ParseBytes Example.noAccountBody).Get "result").Get "response").Get
      "value").String = "" ∧
    ((NewClient (Example.node 200 Example.noAccountBody) Example.baseURL false).getBalance
      Example.deps Example.address "BNB").value
      = .returned (some ⟨"bnb1grpf0955h0ykzq3ar5nmum7y6gdfl6lxfn46h2", 0⟩, none) :=
  ⟨rfl, by decide, by decide,
    getBalance_empty_value Example.deps _ (Example.node 200 Example.noAccountBody)
      Example.address "BNB" Example.addressBytes ⟨some ⟨200⟩, Example.noAccountBody⟩ 200
      rfl (by decide) rfl rfl (Or.inl rfl) (by decide)⟩

/-- C5 (counterexample): the node answers the broadcast with status 200, `result.height` "0"
and a `check_tx` object; `sendTransaction` fails, and its error message is not the string form
of `result.check_tx` but that text after "send transaction failed with error:". -/
theorem sendTransaction_message_has_lead :
    (((Example.deps.ParseBytes Example.rejectedBody).Get "result").Get "height").Uint = 0 ∧
    (((Example.deps.ParseBytes Example.rejectedBody).Get "result").Get "check_tx").String
      = "\x7b\"code\":4\x7d" ∧
    ((NewClient (Example.node 200 Example.rejectedBody) Example.baseURL false).sendTransaction
      Example.deps "c601").value
      = .returned ("", some "send transaction failed with error:\x7b\"code\":4\x7d") ∧
    (some "send transaction failed with error:\x7b\"code\":4\x7d" : error)
      ≠ some (((Example.deps.ParseBytes Example.rejectedBody).Get "result").Get
          "check_tx").String := by
  refine ⟨by decide, by decide, rfl, by decide⟩

/-- C5 (amended): when the node answers the broadcast with status 200 or 204: if the `Uint()`
of `result.height` is 0, `sendTransaction` fails and the error message is
"send transaction failed with error:" followed by the `String()` of `result.check_tx`; if
it is greater than 0, `sendTransaction` returns the `String()` of `result.hash` with a nil
error. -/
theorem sendTransaction_result (D : Deps) (c : Client) (api : Req) (jsonStr : String)
    (resp : Resp) (code : Int)
    (hc : c.client = some api)
    (hdo : (api.Do "GET" (c.BaseURL ++ ("/broadcast_tx_commit?tx=0x" ++ jsonStr)) none).1
      = some resp)
    (hresp : resp.Response = some ⟨code⟩) (hcode : code = 200 ∨ code = 204) :
    ((((D.ParseBytes resp.body).Get "result").Get "height").Uint = 0 →
      (c.sendTransaction D jsonStr).value
        = .returned ("", some ("send transaction failed with error:"
            ++ (((D.ParseBytes resp.body).Get "result").Get "check_tx").String))) ∧
    (0 < (((D.ParseBytes resp.body).Get "result").Get "height").Uint →
      (c.sendTransaction D jsonStr).value
        = .returned ((((D.ParseBytes resp.body).Get "result").Get "hash").String, none)) := by
  have hcall := Client.Call_of_status D c api ("/broadcast_tx_commit?tx=0x" ++ jsonStr) none
    "GET" resp code hc hdo hresp hcode
  constructor
  · intro h0
    unfold Client.sendTransaction
    simp only [hcall, h0, if_true]
  · intro hpos
    unfold Client.sendTransaction
    simp only [hcall, Nat.ne_of_gt hpos, if_false]

/-- C5, at a broadcast answered with height "12" and hash "AB12". -/
theorem sendTransaction_result_witness :
    (NewClient (Example.node 200 Example.committedBody) Example.baseURL false).client
      = some (Example.node 200 Example.committedBody) ∧
    0 < (((Example.deps.ParseBytes Example.committedBody).Get "result").Get "height").Uint ∧
    ((NewClient (Example.node 200 Example.committedBody) Example.baseURL false).sendTransaction
      Example.deps "c601").value = .returned ("AB12", none) :=
  ⟨rfl, by decide,
    ((sendTransaction_result Example.deps _ (Example.node 200 Example.committedBody) "c601"
      ⟨some ⟨200⟩, Example.committedBody⟩ 200 rfl rfl rfl (Or.inl rfl)).2 (by decide)).trans
      rfl⟩

end binancechain
